import Mathlib

/-!
Shallow embedding of the TCP connection lifecycle core of go-tun2socks
(`core/tcp_conn.go`).  The Go code drives a single-threaded lwIP engine;
here every engine call (tcp_close, tcp_abort, tcp_recved, tcp_write,
tcp_output, callback detachment, registry manipulation, condition-variable
broadcast, context cancellation) is recorded as an explicit `EngineOp` in a
trace, and the identity registry (`tcpConns`, a map from a numeric key to a
connection) is modelled as the list of keys currently stored.  The three
boolean flags of `tcpConn` are read under a per-connection lock in Go; a
single invocation of a callback is modelled on a snapshot of the flags.
-/

namespace Tun2socks

/-- Engine-visible actions performed by the connection code, in program
order.  `tcpArgNil` through `tcpPollNil` are the five callback-detachment
calls made by `closeInternal`; `freeConnKeyArg` and `registryDelete` are the
two effects of `Release`; `cancel` is the context cancellation. -/
inductive EngineOp
  | broadcast
  | tcpArgNil
  | tcpRecvNil
  | tcpSentNil
  | tcpErrNil
  | tcpPollNil
  | freeConnKeyArg
  | registryDelete
  | cancel
  | tcpClose
  | tcpAbort
  deriving DecidableEq

/-- Result code returned by `CheckState` to the engine: `NewLWIPError`
with `LWIP_ERR_OK` or `LWIP_ERR_ABRT` in the Go code. -/
inductive LwipResult
  | ok
  | abrt
  deriving DecidableEq

/-- The identity registry `tcpConns`: the set of connection keys currently
stored, modelled as a list of keys. -/
abbrev Registry := List Nat

/-- The flag state of a `tcpConn` relevant to the lifecycle state machine:
its registry key and the three booleans `closing`, `localClosed`,
`aborting` (Go struct `tcpConn`, fields in source order). -/
structure tcpConn where
  connKey : Nat
  closing : Bool
  localClosed : Bool
  aborting : Bool
  deriving DecidableEq

/-- Release: `if _, found := tcpConns.Load(key); found { FreeConnKeyArg;
tcpConns.Delete(key) }`.  Removes the key from the registry and frees the
native argument slot, only when the key is still present. -/
def Release (key : Nat) (reg : Registry) : Registry × List EngineOp :=
  if key ∈ reg then
    (reg.filter (fun k => k ≠ key), [EngineOp.freeConnKeyArg, EngineOp.registryDelete])
  else
    (reg, [])

/-- closeInternal: detaches the five engine callbacks, runs `Release`,
cancels the context and issues `tcp_close`.  Its Go return value (the
`tcp_close` error) is discarded by `CheckState`, so it is not modelled. -/
def closeInternal (key : Nat) (reg : Registry) : Registry × List EngineOp :=
  let r := Release key reg
  (r.1, [EngineOp.tcpArgNil, EngineOp.tcpRecvNil, EngineOp.tcpSentNil,
         EngineOp.tcpErrNil, EngineOp.tcpPollNil] ++ r.2 ++
        [EngineOp.cancel, EngineOp.tcpClose])

/-- abortInternal: runs `Release` and issues `tcp_abort`. -/
def abortInternal (key : Nat) (reg : Registry) : Registry × List EngineOp :=
  let r := Release key reg
  (r.1, r.2 ++ [EngineOp.tcpAbort])

/-- Result of one `CheckState` invocation: the lwIP code returned to the
engine, the registry afterwards, and the trace of engine operations. -/
structure CSOut where
  code : LwipResult
  reg : Registry
  ops : List EngineOp
  deriving DecidableEq

/-- CheckState, the state-evaluation routine reached from the Sent, Poll
and LocalDidClose callbacks.  Mirrors the Go control flow: if
`localClosed` is not set it broadcasts the write gate and returns OK;
otherwise, if `closing || localClosed` it runs `closeInternal`, and then
if `aborting` it additionally runs `abortInternal` and returns the abort
code. -/
def CheckState (c : tcpConn) (reg : Registry) : CSOut :=
  if !c.localClosed then
    ⟨LwipResult.ok, reg, [EngineOp.broadcast]⟩
  else
    let p1 := if c.closing || c.localClosed then closeInternal c.connKey reg
              else (reg, [])
    if c.aborting then
      let p2 := abortInternal c.connKey p1.1
      ⟨LwipResult.abrt, p2.1, p1.2 ++ p2.2⟩
    else
      ⟨LwipResult.ok, p1.1, p1.2⟩

/-- After `Release key reg` the key is no longer in the registry. -/
theorem release_not_mem (key : Nat) (reg : Registry) : key ∉ (Release key reg).1 := by
  by_cases h : key ∈ reg
  · simp [Release, h]
  · simp [Release, h]

/-- C1, counterexample: a connection with `aborting` set but `localClosed`
unset.  `CheckState` takes the early return: it broadcasts, returns the OK
code (not the aborted one), issues no `tcp_abort` and leaves the registry
entry in place — the Aborting path is not reachable from this state,
contradicting the claim that it is reachable regardless of `localClosed`. -/
theorem CheckState_aborting_without_localClosed_cex :
    (CheckState ⟨7, false, false, true⟩ [7]).code = LwipResult.ok ∧
    (CheckState ⟨7, false, false, true⟩ [7]).ops = [EngineOp.broadcast] ∧
    (CheckState ⟨7, false, false, true⟩ [7]).reg = [7] := by decide

/-- C1, amended: when `aborting` is set AND `localClosed` is also set,
`CheckState` performs the forced release and returns the aborted signal:
the result code is `LWIP_ERR_ABRT`, a `tcp_abort` is issued, and the
connection's key is absent from the registry afterwards.  When
`localClosed` is unset the Aborting path is unreachable (see the
counterexample). -/
theorem CheckState_aborting_with_localClosed (c : tcpConn) (reg : Registry)
    (hab : c.aborting = true) (hlc : c.localClosed = true) :
    (CheckState c reg).code = LwipResult.abrt ∧
    EngineOp.tcpAbort ∈ (CheckState c reg).ops ∧
    c.connKey ∉ (CheckState c reg).reg := by
  by_cases h : c.connKey ∈ reg
  · simp [CheckState, closeInternal, abortInternal, Release, hab, hlc, h, List.mem_filter]
  · simp [CheckState, closeInternal, abortInternal, Release, hab, hlc, h]

/-- C1, witness for the amended theorem at a concrete input. -/
theorem CheckState_aborting_with_localClosed_witness :
    (CheckState ⟨7, false, true, true⟩ [7]).code = LwipResult.abrt ∧
    EngineOp.tcpAbort ∈ (CheckState ⟨7, false, true, true⟩ [7]).ops ∧
    (7 : Nat) ∉ (CheckState ⟨7, false, true, true⟩ [7]).reg :=
  CheckState_aborting_with_localClosed ⟨7, false, true, true⟩ [7] rfl rfl

/-- C2, counterexample: a connection on which only `Close()` has run
(`closing` set, `localClosed` unset).  `CheckState` returns with only a
broadcast: no release operation of any kind, registry untouched.  Since
`CheckState` does not inspect pending send data at all and behaves this
way on every invocation while `localClosed` is false, the outstanding
close request alone never triggers the graceful release. -/
theorem CheckState_closing_alone_cex :
    CheckState ⟨5, true, false, false⟩ [5] = ⟨LwipResult.ok, [5], [EngineOp.broadcast]⟩ ∧
    ((CheckState ⟨5, true, false, false⟩ [5]).ops.contains EngineOp.tcpClose) = false := by
  decide

/-- C2, amended: a pending close request (`closing`) alone never triggers
the graceful release — while `localClosed` is false, `CheckState` only
broadcasts the write gate and returns OK with the registry unchanged; the
graceful release (engine close) runs only once `localClosed` is set, and
then it runs whenever `closing` is set. -/
theorem CheckState_closing_needs_localClosed (c : tcpConn) (reg : Registry)
    (hcl : c.closing = true) :
    (c.localClosed = false → CheckState c reg = ⟨LwipResult.ok, reg, [EngineOp.broadcast]⟩) ∧
    (c.localClosed = true → EngineOp.tcpClose ∈ (CheckState c reg).ops) := by
  constructor
  · intro h
    simp [CheckState, h]
  · intro h
    by_cases hm : c.connKey ∈ reg <;>
      cases hab : c.aborting <;>
        simp [CheckState, closeInternal, abortInternal, Release, hcl, h, hab, hm]

/-- C2, witness for the amended theorem at a concrete input. -/
theorem CheckState_closing_needs_localClosed_witness :
    CheckState ⟨5, true, false, false⟩ [5] = ⟨LwipResult.ok, [5], [EngineOp.broadcast]⟩ :=
  (CheckState_closing_needs_localClosed ⟨5, true, false, false⟩ [5] rfl).1 rfl

/-- C3, evaluation at the failing input: a connection with both
`localClosed` and `aborting` set.  One `CheckState` run executes
`closeInternal` (issuing the engine's close) and then `abortInternal`
(issuing the engine's abort) on the same connection — both teardown
operations are issued, contrary to the claim.  The registry deletion
itself runs only once (the second `Release` finds the key already gone),
and afterwards the registry holds no entry for the key. -/
theorem CheckState_both_flags_issues_close_and_abort :
    EngineOp.tcpClose ∈ (CheckState ⟨7, false, true, true⟩ [7]).ops ∧
    EngineOp.tcpAbort ∈ (CheckState ⟨7, false, true, true⟩ [7]).ops ∧
    (CheckState ⟨7, false, true, true⟩ [7]).ops.count EngineOp.registryDelete = 1 ∧
    (CheckState ⟨7, false, true, true⟩ [7]).reg = [] := by decide

/-- lwIP error codes used by the write path. -/
def ERR_OK : Int := 0

/-- lwIP out-of-memory code (`ERR_MEM`). -/
def ERR_MEM : Int := -1

/-- Errors `Write` and `tcpWrite` can return: the two state-conflict
errors ("closed by local" / "aborting") and the wrapped engine error
"lwip tcp_write failed with error code: c", which preserves the numeric
code. -/
inductive WriteErr
  | closedByLocal
  | abortingConn
  | lwipWriteFailed (code : Int)
  deriving DecidableEq

/-- Result of one `tcpWrite` call: the byte count returned, the error
returned, and whether `tcp_output` was invoked. -/
structure TcpWriteOut where
  n : Nat
  err : Option WriteErr
  output : Bool
  deriving DecidableEq

/-- tcpWrite: submits `data` to the engine via `tcp_write`; `res` is the
engine's return code.  On `ERR_OK` it calls `tcp_output` and reports the
whole chunk written; on `ERR_MEM` it reports zero bytes and no error; any
other code becomes a wrapped error carrying the numeric code. -/
def tcpWrite (data : List Nat) (res : Int) : TcpWriteOut :=
  if res = ERR_OK then ⟨data.length, none, true⟩
  else if res = ERR_MEM then ⟨0, none, false⟩
  else ⟨0, some (WriteErr.lwipWriteFailed res), false⟩

/-- Environment snapshot for one iteration of the `Write` loop: the flag
values observed at the top of the loop, the engine's advertised `snd_buf`
under the engine lock, and the engine's `tcp_write` return code should a
write be attempted this round. -/
structure WriteRound where
  localClosed : Bool
  aborting : Bool
  snd_buf : Nat
  writeRes : Int
  deriving DecidableEq

/-- Outcome of a `Write` call: `ret` is the integer the Go function
returns, `err` its error, `accepted` the ground-truth count of bytes the
engine actually accepted during the call, and `calls` the list of
`tcpWrite` invocations, each paired with the `snd_buf` advertised at the
time. -/
structure WOut where
  ret : Nat
  err : Option WriteErr
  accepted : Nat
  calls : List (Nat × List Nat)
  deriving DecidableEq

/-- Outcome of one iteration of the `Write` loop body: either the
function returns (`done`), or the writer blocks on the write gate
(`wait`) carrying the remaining data, the running total and the calls so
far into the next iteration. -/
inductive StepRes
  | done (w : WOut)
  | wait (data : List Nat) (total : Nat) (calls : List (Nat × List Nat))
  deriving DecidableEq

/-- One iteration of the `Write` loop body, for non-empty `data`: check
`localClosed` then `aborting` (returning count 0 on either, as the source
does even when `total` bytes were already accepted), clamp the chunk to
`snd_buf` (`toWrite`), submit it through `tcpWrite` when positive, return
the first error with the running total, advance past the accepted bytes,
return once nothing remains, otherwise block on the write gate. -/
def writeStep (r : WriteRound) (data : List Nat) (total : Nat)
    (calls : List (Nat × List Nat)) : StepRes :=
  if r.localClosed then StepRes.done ⟨0, some WriteErr.closedByLocal, total, calls⟩
  else if r.aborting then StepRes.done ⟨0, some WriteErr.abortingConn, total, calls⟩
  else
    let toWrite := min data.length r.snd_buf
    if 0 < toWrite then
      let tw := tcpWrite (data.take toWrite) r.writeRes
      match tw.err with
      | some e => StepRes.done ⟨total + tw.n, some e, total + tw.n,
                                calls ++ [(r.snd_buf, data.take toWrite)]⟩
      | none =>
        if (data.drop tw.n).isEmpty then
          StepRes.done ⟨total + tw.n, none, total + tw.n,
                        calls ++ [(r.snd_buf, data.take toWrite)]⟩
        else
          StepRes.wait (data.drop tw.n) (total + tw.n)
            (calls ++ [(r.snd_buf, data.take toWrite)])
    else
      StepRes.wait data total calls

/-- The `for len(data) > 0` loop of `Write`.  One `WriteRound` is consumed
per loop iteration; `none` means the rounds ran out while the writer was
still blocked on the write gate. -/
def writeLoop : List WriteRound → List Nat → Nat → List (Nat × List Nat) → Option WOut
  | rounds, data, total, calls =>
    if data.isEmpty then some ⟨total, none, total, calls⟩
    else
      match rounds with
      | [] => none
      | r :: rs =>
        match writeStep r data total calls with
        | StepRes.done w => some w
        | StepRes.wait data' total' calls' => writeLoop rs data' total' calls'

/-- Write: runs the backpressure loop starting with zero bytes written. -/
def Write (rounds : List WriteRound) (data : List Nat) : Option WOut :=
  writeLoop rounds data 0 []

/-- Unfolding of the loop when no rounds remain. -/
theorem writeLoop_nil (data : List Nat) (total : Nat) (calls : List (Nat × List Nat)) :
    writeLoop [] data total calls =
      if data.isEmpty then some ⟨total, none, total, calls⟩ else none := rfl

/-- Unfolding of the loop for one available round. -/
theorem writeLoop_cons (r : WriteRound) (rs : List WriteRound) (data : List Nat)
    (total : Nat) (calls : List (Nat × List Nat)) :
    writeLoop (r :: rs) data total calls =
      if data.isEmpty then some ⟨total, none, total, calls⟩
      else
        match writeStep r data total calls with
        | StepRes.done w => some w
        | StepRes.wait data' total' calls' => writeLoop rs data' total' calls' := rfl

/-- Any error produced by `tcpWrite` is a wrapped engine error. -/
theorem tcpWrite_err_shape (data : List Nat) (res : Int) (e : WriteErr)
    (h : (tcpWrite data res).err = some e) : ∃ c, e = WriteErr.lwipWriteFailed c := by
  by_cases h1 : res = ERR_OK
  · simp [tcpWrite, h1] at h
  · by_cases h2 : res = ERR_MEM
    · simp [tcpWrite, h1, h2, ERR_OK, ERR_MEM] at h
    · simp [tcpWrite, h1, h2] at h
      exact ⟨res, h.symm⟩

/-- C7: `tcpWrite` returns the chunk length with no error when the engine
accepts the chunk (and then flushes with `tcp_output`), returns zero bytes
and no error on the engine's out-of-memory code, and for any other code
returns zero bytes and an error preserving the numeric code; the
out-of-memory code is never surfaced as an error. -/
theorem tcpWrite_spec (data : List Nat) (res : Int) :
    (res = ERR_OK → tcpWrite data res = ⟨data.length, none, true⟩) ∧
    (res = ERR_MEM → tcpWrite data res = ⟨0, none, false⟩) ∧
    (res ≠ ERR_OK → res ≠ ERR_MEM →
      tcpWrite data res = ⟨0, some (WriteErr.lwipWriteFailed res), false⟩) ∧
    (∀ c : Int, (tcpWrite data res).err = some (WriteErr.lwipWriteFailed c) →
      c = res ∧ c ≠ ERR_MEM) := by
  refine ⟨fun h => by simp [tcpWrite, h], fun h => by simp [tcpWrite, h, ERR_OK, ERR_MEM],
    fun h1 h2 => by simp [tcpWrite, h1, h2], fun c hc => ?_⟩
  by_cases h1 : res = ERR_OK
  · simp [tcpWrite, h1] at hc
  · by_cases h2 : res = ERR_MEM
    · simp [tcpWrite, h1, h2, ERR_OK, ERR_MEM] at hc
    · simp [tcpWrite, h1, h2] at hc
      subst hc
      exact ⟨rfl, h2⟩

/-- C7, witness at a concrete hard error code. -/
theorem tcpWrite_spec_witness :
    tcpWrite [1, 2] (-3) = ⟨0, some (WriteErr.lwipWriteFailed (-3)), false⟩ :=
  (tcpWrite_spec [1, 2] (-3)).2.2.1 (by decide) (by decide)

/-- Accounting for one loop iteration: if the body returns, the returned
count equals the accepted byte count except on the state-conflict error
paths, where the source returns 0. -/
theorem writeStep_done_ret (r : WriteRound) (data : List Nat) (total : Nat)
    (calls : List (Nat × List Nat)) (w : WOut)
    (h : writeStep r data total calls = StepRes.done w) :
    (w.err = none → w.ret = w.accepted) ∧
    (∀ c, w.err = some (WriteErr.lwipWriteFailed c) → w.ret = w.accepted) ∧
    (w.err = some WriteErr.closedByLocal ∨ w.err = some WriteErr.abortingConn →
      w.ret = 0) := by
  by_cases hlc : r.localClosed = true
  · simp only [writeStep, hlc, if_true] at h
    cases h
    simp
  · by_cases hab : r.aborting = true
    · simp only [writeStep, hlc, hab, if_true, if_false, Bool.false_eq_true] at h
      cases h
      simp
    · by_cases h0 : 0 < min data.length r.snd_buf
      · simp only [writeStep, hlc, hab, h0, if_true, if_false, Bool.false_eq_true] at h
        rcases hres : (tcpWrite (data.take (min data.length r.snd_buf)) r.writeRes).err with
          _ | e
        · simp only [hres] at h
          by_cases hdrop :
              (data.drop (tcpWrite (data.take (min data.length r.snd_buf)) r.writeRes).n).isEmpty
                = true
          · simp only [hdrop, if_true] at h
            cases h
            simp
          · simp only [hdrop, if_false, Bool.false_eq_true] at h
            simp at h
        · simp only [hres] at h
          obtain ⟨c, rfl⟩ := tcpWrite_err_shape _ _ e hres
          cases h
          simp
      · simp only [writeStep, hlc, hab, h0, if_true, if_false, Bool.false_eq_true] at h
        simp at h

/-- Accounting invariant of the write loop. -/
theorem writeLoop_ret_accounts (rounds : List WriteRound) :
    ∀ (data : List Nat) (total : Nat) (calls : List (Nat × List Nat)) (w : WOut),
      writeLoop rounds data total calls = some w →
      (w.err = none → w.ret = w.accepted) ∧
      (∀ c, w.err = some (WriteErr.lwipWriteFailed c) → w.ret = w.accepted) ∧
      (w.err = some WriteErr.closedByLocal ∨ w.err = some WriteErr.abortingConn →
        w.ret = 0) := by
  induction rounds with
  | nil =>
    intro data total calls w hw
    rw [writeLoop_nil] at hw
    by_cases hd : data.isEmpty = true
    · rw [if_pos hd] at hw
      cases hw
      simp
    · rw [if_neg hd] at hw
      exact Option.noConfusion hw
  | cons r rs ih =>
    intro data total calls w hw
    rw [writeLoop_cons] at hw
    by_cases hd : data.isEmpty = true
    · rw [if_pos hd] at hw
      cases hw
      simp
    · rw [if_neg hd] at hw
      cases hstep : writeStep r data total calls with
      | done w' =>
        simp only [hstep] at hw
        cases hw
        exact writeStep_done_ret r data total calls _ hstep
      | wait d t c =>
        simp only [hstep] at hw
        exact ih d t c w hw

/-- C4, counterexample: two loop iterations; the first accepts a 10-byte
chunk of a 20-byte input with the engine reporting success, then
`localClosed` becomes set.  `Write` returns the count 0 and the
"closed by local" error even though 10 bytes were actually accepted by
the engine during the call — the returned integer does not equal the
bytes accepted. -/
theorem Write_partial_then_closed_cex :
    (Write [⟨false, false, 10, 0⟩, ⟨true, false, 10, 0⟩] (List.replicate 20 1)).map WOut.ret
        = some 0 ∧
    (Write [⟨false, false, 10, 0⟩, ⟨true, false, 10, 0⟩] (List.replicate 20 1)).map WOut.accepted
        = some 10 ∧
    (Write [⟨false, false, 10, 0⟩, ⟨true, false, 10, 0⟩] (List.replicate 20 1)).map WOut.err
        = some (some WriteErr.closedByLocal) := by decide

/-- C4, amended: the integer returned by `Write` equals the bytes actually
accepted on the success path and on the engine-error path (first error
returned), but on the `localClosed`/`aborting` failure paths `Write`
returns 0 even when earlier chunks were already accepted. -/
theorem Write_ret_accounts (rounds : List WriteRound) (data : List Nat) (w : WOut)
    (hw : Write rounds data = some w) :
    (w.err = none → w.ret = w.accepted) ∧
    (∀ c, w.err = some (WriteErr.lwipWriteFailed c) → w.ret = w.accepted) ∧
    (w.err = some WriteErr.closedByLocal ∨ w.err = some WriteErr.abortingConn →
      w.ret = 0) :=
  writeLoop_ret_accounts rounds data 0 [] w hw

/-- C4, witness for the amended theorem at a concrete input. -/
theorem Write_ret_accounts_witness :
    (⟨3, none, 3, [(5, [1, 2, 3])]⟩ : WOut).ret
      = (⟨3, none, 3, [(5, [1, 2, 3])]⟩ : WOut).accepted :=
  (Write_ret_accounts [⟨false, false, 5, 0⟩] [1, 2, 3]
    ⟨3, none, 3, [(5, [1, 2, 3])]⟩ (by decide)).1 rfl

/-- C6, counterexample: a zero-length `Write` on a connection whose
`localClosed` flag is already set returns 0 bytes and NO error — the
`for len(data) > 0` loop never runs, so the flag is never checked,
contradicting the claim that such a call returns an error. -/
theorem Write_localClosed_empty_data_cex :
    Write [⟨true, false, 100, 0⟩] [] = some ⟨0, none, 0, []⟩ := by decide

/-- C6, amended: for any NON-empty input, a `Write` on a connection whose
`localClosed` flag is set before the call fails immediately with the
"closed by local" error, submits nothing to the engine and reports zero
bytes, whatever `snd_buf` the engine advertises; a zero-length `Write`
instead returns 0 bytes with no error (see the counterexample). -/
theorem Write_localClosed_fails_nonempty (r : WriteRound) (rs : List WriteRound)
    (data : List Nat) (hlc : r.localClosed = true) (hne : data ≠ []) :
    Write (r :: rs) data = some ⟨0, some WriteErr.closedByLocal, 0, []⟩ := by
  have hd : data.isEmpty = false := by simpa [List.isEmpty_iff] using hne
  unfold Write
  rw [writeLoop_cons, if_neg (by simp [hd])]
  simp [writeStep, hlc]

/-- C6, witness for the amended theorem at a concrete input. -/
theorem Write_localClosed_fails_nonempty_witness :
    Write [⟨true, false, 100, 0⟩] [9] = some ⟨0, some WriteErr.closedByLocal, 0, []⟩ :=
  Write_localClosed_fails_nonempty ⟨true, false, 100, 0⟩ [] [9] rfl (by decide)

/-- The calls list carried by a step result. -/
def callsOf : StepRes → List (Nat × List Nat)
  | StepRes.done w => w.calls
  | StepRes.wait _ _ c => c

/-- Appending the chunk submitted this round preserves the bound: the
clamped chunk is non-empty and no longer than the advertised buffer. -/
theorem calls_inv_extend (calls : List (Nat × List Nat)) (data : List Nat) (s : Nat)
    (hinv : ∀ p ∈ calls, 0 < p.2.length ∧ p.2.length ≤ p.1)
    (h0 : 0 < min data.length s) :
    ∀ p ∈ calls ++ [(s, data.take (min data.length s))],
      0 < p.2.length ∧ p.2.length ≤ p.1 := by
  intro p hp
  rcases List.mem_append.1 hp with h | h
  · exact hinv p h
  · simp only [List.mem_singleton] at h
    subst h
    have h1 : min data.length s ≤ data.length := min_le_left _ _
    refine ⟨?_, ?_⟩ <;> rw [List.length_take, min_eq_left h1]
    · exact h0
    · exact min_le_right _ _

/-- One loop iteration preserves the chunk bound on the recorded
`tcpWrite` calls, whether the body returns or blocks. -/
theorem writeStep_calls_inv (r : WriteRound) (data : List Nat) (total : Nat)
    (calls : List (Nat × List Nat))
    (hinv : ∀ p ∈ calls, 0 < p.2.length ∧ p.2.length ≤ p.1) :
    ∀ p ∈ callsOf (writeStep r data total calls), 0 < p.2.length ∧ p.2.length ≤ p.1 := by
  by_cases hlc : r.localClosed = true
  · simpa only [writeStep, hlc, if_true, callsOf] using hinv
  · by_cases hab : r.aborting = true
    · simpa only [writeStep, hlc, hab, if_true, if_false, Bool.false_eq_true, callsOf]
        using hinv
    · by_cases h0 : 0 < min data.length r.snd_buf
      · simp only [writeStep, hlc, hab, h0, if_true, if_false, Bool.false_eq_true]
        rcases hres : (tcpWrite (data.take (min data.length r.snd_buf)) r.writeRes).err with
          _ | e
        · simp only [hres]
          by_cases hdrop :
              (data.drop (tcpWrite (data.take (min data.length r.snd_buf)) r.writeRes).n).isEmpty
                = true
          · simp only [hdrop, if_true, callsOf]
            exact calls_inv_extend calls data r.snd_buf hinv h0
          · simp only [hdrop, if_false, Bool.false_eq_true, callsOf]
            exact calls_inv_extend calls data r.snd_buf hinv h0
        · simp only [hres, callsOf]
          exact calls_inv_extend calls data r.snd_buf hinv h0
      · simpa only [writeStep, hlc, hab, h0, if_true, if_false, Bool.false_eq_true, callsOf]
          using hinv

/-- Every `tcpWrite` invocation recorded by the write loop carries a
non-empty chunk no longer than the `snd_buf` advertised at the time,
provided the calls accumulated so far already do. -/
theorem writeLoop_calls_bounded (rounds : List WriteRound) :
    ∀ (data : List Nat) (total : Nat) (calls : List (Nat × List Nat)) (w : WOut),
      (∀ p ∈ calls, 0 < p.2.length ∧ p.2.length ≤ p.1) →
      writeLoop rounds data total calls = some w →
      ∀ p ∈ w.calls, 0 < p.2.length ∧ p.2.length ≤ p.1 := by
  induction rounds with
  | nil =>
    intro data total calls w hinv hw
    rw [writeLoop_nil] at hw
    by_cases hd : data.isEmpty = true
    · rw [if_pos hd] at hw
      cases hw
      exact hinv
    · rw [if_neg hd] at hw
      exact Option.noConfusion hw
  | cons r rs ih =>
    intro data total calls w hinv hw
    rw [writeLoop_cons] at hw
    by_cases hd : data.isEmpty = true
    · rw [if_pos hd] at hw
      cases hw
      exact hinv
    · rw [if_neg hd] at hw
      cases hstep : writeStep r data total calls with
      | done w' =>
        simp only [hstep] at hw
        cases hw
        have := writeStep_calls_inv r data total calls hinv
        rw [hstep] at this
        exact this
      | wait d t c =>
        simp only [hstep] at hw
        have := writeStep_calls_inv r data total calls hinv
        rw [hstep] at this
        exact ih d t c w this hw

/-- C9: in every terminating execution of `Write`, each invocation of
`tcpWrite` receives a non-empty chunk whose length is at most the
`snd_buf` the engine advertised in that round, so the access to the
chunk's first byte in `tcpWrite` never indexes an empty slice. -/
theorem Write_chunks_nonempty_and_bounded (rounds : List WriteRound) (data : List Nat)
    (w : WOut) (hw : Write rounds data = some w) :
    ∀ p ∈ w.calls, 0 < p.2.length ∧ p.2.length ≤ p.1 :=
  writeLoop_calls_bounded rounds data 0 [] w (by simp) hw

/-- C9, witness at a concrete input. -/
theorem Write_chunks_nonempty_and_bounded_witness :
    0 < ([1, 2, 3] : List Nat).length ∧ ([1, 2, 3] : List Nat).length ≤ 5 :=
  Write_chunks_nonempty_and_bounded [⟨false, false, 5, 0⟩] [1, 2, 3]
    ⟨3, none, 3, [(5, [1, 2, 3])]⟩ (by decide) (5, [1, 2, 3]) (by decide)

/-- Errors `Receive` can return: "connection ... was closed by remote"
(when `closing` is set), "connection ... is aborting" (when `aborting` is
set), and the wrapped Handler failure "write proxy failed: ...". -/
inductive ReceiveErr
  | closedByRemote
  | connAborting
  | proxyWriteFailed
  deriving DecidableEq

/-- Observable outcome of one `Receive` callback: the error returned,
whether the Handler's `DidReceive` was invoked, the argument of the
`tcp_recved` acknowledgment if one was issued, and the connection's flags
afterwards. -/
structure ROut where
  err : Option ReceiveErr
  handlerCalled : Bool
  recved : Option Nat
  flagsAfter : tcpConn
  deriving DecidableEq

/-- Receive, the data-ingress callback: rejects when `closing` (checked
first) or `aborting` is set, without touching the Handler; otherwise
forwards the buffer to the Handler (`herr` is whether `DidReceive`
failed) and, only on Handler success, acknowledges `len(data)` bytes to
the engine via `tcp_recved`.  No branch modifies the flags. -/
def Receive (conn : tcpConn) (herr : Bool) (data : List Nat) : ROut :=
  if conn.closing then ⟨some ReceiveErr.closedByRemote, false, none, conn⟩
  else if conn.aborting then ⟨some ReceiveErr.connAborting, false, none, conn⟩
  else if herr then ⟨some ReceiveErr.proxyWriteFailed, true, none, conn⟩
  else ⟨none, true, some data.length, conn⟩

/-- Sequence of independent `Receive` callbacks on a connection whose
flags never change and whose Handler always succeeds. -/
def runReceives (conn : tcpConn) (bufs : List (List Nat)) : List ROut :=
  bufs.map (Receive conn false)

/-- The three data callbacks of the C5 scenario: 100, 50 and 0 bytes. -/
def scenarioBufs : List (List Nat) :=
  [List.replicate 100 0, List.replicate 50 0, []]

/-- C5, counterexample: running the 100-, 50- and 0-byte callbacks on an
open connection with an always-succeeding Handler does NOT produce 2
Handler notifications with 2 acknowledgments: `Receive` has no
empty-buffer check, so all three callbacks notify the Handler and all
three issue a `tcp_recved` acknowledgment (the last one of 0 bytes). -/
theorem Receive_scenario_cex :
    (runReceives ⟨3, false, false, false⟩ scenarioBufs).countP
        (fun o => o.handlerCalled) = 3 ∧
    (runReceives ⟨3, false, false, false⟩ scenarioBufs).countP
        (fun o => o.recved.isSome) = 3 ∧
    ((runReceives ⟨3, false, false, false⟩ scenarioBufs).countP
        (fun o => o.handlerCalled) == 2) = false := by decide

/-- C5, amended: in the 100/50/0 scenario the Handler receives exactly 3
receive notifications (one per callback, the empty one included), the
bytes forwarded total 150, and the engine receives one `tcp_recved`
acknowledgment per callback — 100, 50 and 0 bytes respectively, the
empty callback included. -/
theorem Receive_scenario_actual :
    runReceives ⟨3, false, false, false⟩ scenarioBufs =
      [⟨none, true, some 100, ⟨3, false, false, false⟩⟩,
       ⟨none, true, some 50, ⟨3, false, false, false⟩⟩,
       ⟨none, true, some 0, ⟨3, false, false, false⟩⟩] ∧
    (scenarioBufs.map List.length).sum = 150 := by decide

/-- C8: `Receive` rejects with the error identifying the state, without
invoking the Handler, when `closing` (checked first) or `aborting` is
set; otherwise it invokes the Handler and acknowledges exactly the
buffer's length to the engine if and only if the Handler succeeded; a
Handler failure is returned as the wrapped proxy-write error; no path
changes the connection's flags. -/
theorem Receive_state_and_handler (conn : tcpConn) (herr : Bool) (data : List Nat) :
    (conn.closing = true →
      Receive conn herr data = ⟨some ReceiveErr.closedByRemote, false, none, conn⟩) ∧
    (conn.closing = false → conn.aborting = true →
      Receive conn herr data = ⟨some ReceiveErr.connAborting, false, none, conn⟩) ∧
    (conn.closing = false → conn.aborting = false →
      (Receive conn herr data).handlerCalled = true ∧
      ((Receive conn herr data).recved = some data.length ↔ herr = false) ∧
      (herr = true → (Receive conn herr data).err = some ReceiveErr.proxyWriteFailed) ∧
      (herr = false → (Receive conn herr data).err = none) ∧
      (Receive conn herr data).flagsAfter = conn) := by
  refine ⟨fun hc => by simp [Receive, hc], fun hc hab => by simp [Receive, hc, hab],
    fun hc hab => ?_⟩
  cases herr <;> simp [Receive, hc, hab]

/-- C8, witness at a concrete open connection with a failing Handler. -/
theorem Receive_state_and_handler_witness :
    (Receive ⟨1, false, false, false⟩ true [5, 6]).handlerCalled = true ∧
    (Receive ⟨1, false, false, false⟩ true [5, 6]).err = some ReceiveErr.proxyWriteFailed := by
  have h := (Receive_state_and_handler ⟨1, false, false, false⟩ true [5, 6]).2.2 rfl rfl
  exact ⟨h.1, h.2.2.1 rfl⟩

/-- Errors `NewTCPConnection` can return: "no registered TCP connection
handlers found", or the error from the Handler's `Connect`. -/
inductive NewConnErr
  | noHandlerRegistered
  | connectFailed
  deriving DecidableEq

/-- Observable outcome of `NewTCPConnection`: the error (none on
success), the registry afterwards, whether the native-argument slot was
allocated and whether it was freed, and whether the engine callbacks were
installed on the native handle. -/
structure NewConnOut where
  err : Option NewConnErr
  reg : Registry
  argSlotAllocated : Bool
  argSlotFreed : Bool
  callbacksInstalled : Bool
  deriving DecidableEq

/-- NewTCPConnection: allocates the key argument slot, then fails if no
TCP handler is registered; otherwise stores the connection in the
registry, installs the recv/sent/err/poll callbacks, and invokes the
Handler's `Connect` (with the engine lock released); `connectErr` is
whether `Connect` failed.  On a `Connect` failure it returns the error
without any cleanup: the registry entry, argument slot and callbacks all
stay in place. -/
def NewTCPConnection (handlerRegistered : Bool) (connectErr : Bool) (connKey : Nat)
    (reg : Registry) : NewConnOut :=
  if !handlerRegistered then
    ⟨some NewConnErr.noHandlerRegistered, reg, true, false, false⟩
  else if connectErr then
    ⟨some NewConnErr.connectFailed, connKey :: reg, true, false, true⟩
  else
    ⟨none, connKey :: reg, true, false, true⟩

/-- C10: when a handler is registered and the Handler's `Connect`
notification fails, `NewTCPConnection` returns the error while the
identity registry still contains the connection's key, the
native-argument slot is not freed, and the engine callbacks remain
installed — the entry survives the failed creation. -/
theorem NewTCPConnection_connect_error_keeps_entry (handlerRegistered connectErr : Bool)
    (connKey : Nat) (reg : Registry) (hreg : handlerRegistered = true)
    (hce : connectErr = true) :
    (NewTCPConnection handlerRegistered connectErr connKey reg).err
        = some NewConnErr.connectFailed ∧
    connKey ∈ (NewTCPConnection handlerRegistered connectErr connKey reg).reg ∧
    (NewTCPConnection handlerRegistered connectErr connKey reg).argSlotFreed = false ∧
    (NewTCPConnection handlerRegistered connectErr connKey reg).callbacksInstalled = true := by
  subst hreg hce
  simp [NewTCPConnection]

/-- C10, witness at a concrete input. -/
theorem NewTCPConnection_connect_error_keeps_entry_witness :
    (NewTCPConnection true true 42 []).err = some NewConnErr.connectFailed ∧
    42 ∈ (NewTCPConnection true true 42 []).reg ∧
    (NewTCPConnection true true 42 []).argSlotFreed = false ∧
    (NewTCPConnection true true 42 []).callbacksInstalled = true :=
  NewTCPConnection_connect_error_keeps_entry true true 42 [] rfl rfl

end Tun2socks
